import Mathlib

/-!
Shallow embedding of the face-tracking front-end
(src/src/App.tsx: the `App` CDN check, and the `FaceMeshView` component with
its renderer `onResults`, lifecycle functions `startFaceMesh` / `stopFaceMesh`,
webcam error handler `handleWebcamError`, the MediaPipe availability poll
`checkMediaPipeAvailability`, and the start effect).

Conventions of the embedding:
- Browser/DOM state is passed explicitly.  React `useState` setters become
  functional updates of a `SessionState` record; React refs holding the
  detector and camera-loop instances become boolean presence flags plus
  explicit trace events recording instance creation.
- The external MediaPipe calls (`drawConnectors`, `drawLandmarks`,
  `faceMesh.send`, `camera.start`, `camera.stop`, `faceMesh.close`) are
  opaque: the renderer is modelled as the exact sequence of canvas-context
  and drawing calls it issues, and the fallible external calls take their
  outcome (`Except String Unit`) as a parameter.
- `console.error` / `console.log` output is modelled as a list of log strings.
-/

/-- A single landmark point in normalized image space, `(x, y, z)`.
The renderer never inspects coordinates; they are carried opaquely. -/
def Landmark : Type := Int × Int × Int

deriving instance DecidableEq for Landmark

/-- One detected face: the ordered landmark list handed to each draw call. -/
def Face : Type := List Landmark

deriving instance DecidableEq for Face

/-- The per-frame result object delivered by the external detector:
`multiFaceLandmarks` is absent (`none`) or a list of faces. -/
structure FaceResults where
  multiFaceLandmarks : Option (List Face)
deriving DecidableEq

/-- The named connector sets drawn by `onResults`
(window.FACEMESH_TESSELATION etc.). -/
inductive ConnectorSet where
  | tesselation
  | rightEye
  | leftEye
  | rightEyebrow
  | leftEyebrow
  | faceOval
  | lips
deriving DecidableEq

/-- The style options object passed to a draw call: color string,
line width and radius scaled by 10 to stay in `Nat`. -/
structure DrawStyle where
  color : String
  lineWidth10 : Nat
  radius10 : Option Nat
deriving DecidableEq

/-- One call issued on the 2D canvas context by `onResults`, in order. -/
inductive CanvasOp where
  | save
  | clearRect (x y w h : Nat)
  | scale (sx sy : Int)
  | translate (tx ty : Int)
  | drawConnectorsCall (landmarks : Face) (set : ConnectorSet) (style : DrawStyle)
  | drawLandmarksCall (landmarks : Face) (style : DrawStyle)
  | restore
deriving DecidableEq

/-- The canvas element: fixed 640x480 in the page, but kept general;
`hasContext` records whether `canvas.getContext('2d')` is non-null. -/
structure Canvas where
  width : Nat
  height : Nat
  hasContext : Bool
deriving DecidableEq

/-- The seven connector draws followed by one landmark draw that
`onResults` performs for a single face, in source order with the
source's style arguments. -/
def drawFacePass (landmarks : Face) : List CanvasOp :=
  [ CanvasOp.drawConnectorsCall landmarks ConnectorSet.tesselation
      ⟨"rgba(255, 255, 255, 0.2)", 8, none⟩
  , CanvasOp.drawConnectorsCall landmarks ConnectorSet.rightEye
      ⟨"rgba(255, 255, 255, 0.8)", 15, none⟩
  , CanvasOp.drawConnectorsCall landmarks ConnectorSet.leftEye
      ⟨"rgba(255, 255, 255, 0.8)", 15, none⟩
  , CanvasOp.drawConnectorsCall landmarks ConnectorSet.rightEyebrow
      ⟨"rgba(255, 255, 255, 0.8)", 15, none⟩
  , CanvasOp.drawConnectorsCall landmarks ConnectorSet.leftEyebrow
      ⟨"rgba(255, 255, 255, 0.8)", 15, none⟩
  , CanvasOp.drawConnectorsCall landmarks ConnectorSet.faceOval
      ⟨"rgba(255, 255, 255, 0.8)", 15, none⟩
  , CanvasOp.drawConnectorsCall landmarks ConnectorSet.lips
      ⟨"rgba(255, 255, 255, 0.8)", 15, none⟩
  , CanvasOp.drawLandmarksCall landmarks
      ⟨"rgba(255, 255, 255, 0.6)", 8, some 12⟩ ]

/-- The renderer callback `onResults` (src/src/App.tsx lines 183-242),
as the exact list of canvas-context calls it issues.
Returns `[]` when `canvasRef.current` is null or `getContext('2d')` is null
(the two early returns). -/
def onResults (canvas : Option Canvas) (results : FaceResults) : List CanvasOp :=
  match canvas with
  | none => []
  | some cv =>
    if cv.hasContext = false then []
    else
      [ CanvasOp.save
      , CanvasOp.clearRect 0 0 cv.width cv.height
      , CanvasOp.scale (-1) 1
      , CanvasOp.translate (-(cv.width : Int)) 0 ]
      ++ (match results.multiFaceLandmarks with
          | none => []
          | some faces =>
            if 0 < faces.length then faces.flatMap drawFacePass else [])
      ++ [CanvasOp.restore]

/-- Whether a canvas-context call is a drawing call (a connector draw or a
landmark draw), as opposed to state management of the context. -/
def isDrawCall : CanvasOp → Bool
  | CanvasOp.drawConnectorsCall _ _ _ => true
  | CanvasOp.drawLandmarksCall _ _ => true
  | _ => false

/-- The drawing calls of a renderer invocation, in order. -/
def drawCallsOf (canvas : Option Canvas) (results : FaceResults) : List CanvasOp :=
  (onResults canvas results).filter isDrawCall

/-- The 2D canvas context state affected by `save` / `restore` /
`scale` / `translate`: the current affine transform
`(x, y) ↦ (a*x + c*y + e, b*x + d*y + f)` (rationals, since the page
uses the non-integral scale factor -1 composed with translations;
integers suffice here but `Int` keeps it exact and simple). -/
structure CtxTransform where
  a : Int
  b : Int
  c : Int
  d : Int
  e : Int
  f : Int
deriving DecidableEq

/-- The identity transform of a fresh 2D context. -/
def CtxTransform.id : CtxTransform := ⟨1, 0, 0, 1, 0, 0⟩

/-- `ctx.scale(sx, sy)` post-multiplies the current transform by a scale. -/
def CtxTransform.scaleBy (t : CtxTransform) (sx sy : Int) : CtxTransform :=
  ⟨t.a * sx, t.b * sx, t.c * sy, t.d * sy, t.e, t.f⟩

/-- `ctx.translate(tx, ty)` post-multiplies the current transform by a
translation. -/
def CtxTransform.translateBy (t : CtxTransform) (tx ty : Int) : CtxTransform :=
  ⟨t.a, t.b, t.c, t.d, t.a * tx + t.c * ty + t.e, t.b * tx + t.d * ty + t.f⟩

/-- The mutable state of the 2D context relevant to `onResults`: the current
transform and the stack maintained by `ctx.save()` / `ctx.restore()`. -/
structure CtxState where
  transform : CtxTransform
  stack : List CtxTransform
deriving DecidableEq

/-- How each canvas-context call of the renderer acts on the context state.
Drawing calls and `clearRect` paint pixels but do not change the
transform or the save stack; `restore` on an empty stack is a no-op
(per the HTML canvas specification). -/
def CtxState.step (s : CtxState) : CanvasOp → CtxState
  | CanvasOp.save => ⟨s.transform, s.transform :: s.stack⟩
  | CanvasOp.restore =>
      match s.stack with
      | [] => s
      | t :: rest => ⟨t, rest⟩
  | CanvasOp.scale sx sy => ⟨s.transform.scaleBy sx sy, s.stack⟩
  | CanvasOp.translate tx ty => ⟨s.transform.translateBy tx ty, s.stack⟩
  | _ => s

/-- Running a sequence of canvas-context calls from a given context state. -/
def CtxState.run (s : CtxState) (ops : List CanvasOp) : CtxState :=
  ops.foldl CtxState.step s

/-- The React state of `FaceMeshView` together with the two instance refs.
`faceMeshRef` / `cameraRef` record whether `faceMeshRef.current` /
`cameraRef.current` hold an instance. -/
structure SessionState where
  showPermissionRequest : Bool
  isLoading : Bool
  cameraReady : Bool
  lastError : Option String
  isRunning : Bool
  cdnAvailable : Bool
  faceMeshRef : Bool
  cameraRef : Bool
deriving DecidableEq

/-- The initial state of `FaceMeshView` (the useState initial values,
refs null). -/
def initialSessionState : SessionState :=
  { showPermissionRequest := true
  , isLoading := false
  , cameraReady := false
  , lastError := none
  , isRunning := false
  , cdnAvailable := true
  , faceMeshRef := false
  , cameraRef := false }

/-- The per-frame callback wired into the camera loop
(src/src/App.tsx lines 280-288).  `videoPresent` models
`webcamRef.current && webcamRef.current.video`; `sendOutcome` is the
result of `await faceMeshRef.current.send(...)`.  Returns the state after
the callback and the `console.error` lines it emitted: the catch block
only logs, so the state is returned unchanged in every case. -/
def onFrame (s : SessionState) (videoPresent : Bool)
    (sendOutcome : Except String Unit) : SessionState × List String :=
  if s.faceMeshRef && videoPresent then
    match sendOutcome with
    | Except.ok _ => (s, [])
    | Except.error e => (s, ["Error sending frame to facemesh: " ++ e])
  else
    (s, [])

/-- The error message thrown by `startFaceMesh` when the MediaPipe globals
are not available. -/
def cdnUnavailableMessage : String :=
  "MediaPipe libraries are not available. Please check your internet connection and try again."

/-- `startFaceMesh` (src/src/App.tsx lines 245-313), modelled to the point
where its asynchronous `camera.start()` promise chain has settled.
`videoPresent` models `webcamRef.current && webcamRef.current.video`,
`canvasPresent` models `canvasRef.current`, and `startOutcome` is how
`cameraRef.current.start()` settles (`Except.error msg` carries
`error.message`, possibly empty).  The guard on the first line returns
with no effect; the CDN check throws into the outer catch; otherwise the
detector and camera instances are created before the start promise
settles, and they remain created even when starting fails. -/
def startFaceMesh (s : SessionState) (videoPresent canvasPresent : Bool)
    (startOutcome : Except String Unit) : SessionState :=
  if !videoPresent || !canvasPresent || s.isRunning then s
  else if !s.cdnAvailable then
    { s with lastError := some cdnUnavailableMessage, isLoading := false }
  else
    let s1 := { s with faceMeshRef := true, cameraRef := true }
    match startOutcome with
    | Except.ok _ =>
        { s1 with isRunning := true, lastError := none, isLoading := false }
    | Except.error msg =>
        { s1 with
            lastError := some (if msg = "" then "Failed to start camera" else msg)
          , isLoading := false }

/-- The body of `stopFaceMesh` before its catch (src/src/App.tsx lines
316-330): stop the camera loop if present, close the detector if present,
then clear the running flag; either external call may throw.
The refs themselves are not cleared by the source. -/
def stopFaceMeshBody (s : SessionState)
    (stopOutcome closeOutcome : Except String Unit) : Except String SessionState := do
  if s.cameraRef then
    match stopOutcome with
    | Except.ok _ => pure ()
    | Except.error e => throw e
  if s.faceMeshRef then
    match closeOutcome with
    | Except.ok _ => pure ()
    | Except.error e => throw e
  pure { s with isRunning := false }

/-- `stopFaceMesh` as observed by its caller: the whole body is wrapped in
try/catch whose handler only logs, so every outcome yields a state and no
error propagates. -/
def stopFaceMesh (s : SessionState)
    (stopOutcome closeOutcome : Except String Unit) : SessionState :=
  match stopFaceMeshBody s stopOutcome closeOutcome with
  | Except.ok s2 => s2
  | Except.error _ => s

/-- Whether the first character list is an initial segment of the second. -/
def leadsWith : List Char → List Char → Bool
  | [], _ => true
  | _ :: _, [] => false
  | a :: as, b :: bs => a == b && leadsWith as bs

/-- Whether the first character list occurs contiguously in the second. -/
def occursIn (sub : List Char) : List Char → Bool
  | [] => sub.isEmpty
  | c :: rest => leadsWith sub (c :: rest) || occursIn sub rest

/-- JS `String.prototype.includes`: whether `sub` occurs as a substring. -/
def strIncludes (s sub : String) : Bool :=
  occursIn sub.toList s.toList

/-- The webcam error value handed to `handleWebcamError`: a `DOMException`
(carrying its `message`) or a plain string. -/
inductive WebcamError where
  | domException (message : String)
  | plain (text : String)
deriving DecidableEq

/-- The `errorMessage` computed at the top of `handleWebcamError`. -/
def webcamErrorMessage : WebcamError → String
  | WebcamError.domException m => m
  | WebcamError.plain t => t

/-- The permission-class test of `handleWebcamError`:
`errorMessage.includes('Permission') || errorMessage.includes('permission')`. -/
def isPermissionClass (msg : String) : Bool :=
  strIncludes msg "Permission" || strIncludes msg "permission"

/-- `handleWebcamError` (src/src/App.tsx lines 168-181): re-show the
permission gate on a permission-class message, then record the message
and stop the loading indicator. -/
def handleWebcamError (s : SessionState) (error : WebcamError) : SessionState :=
  let msg := webcamErrorMessage error
  let s1 := if isPermissionClass msg then { s with showPermissionRequest := true } else s
  { s1 with lastError := some msg, isLoading := false }

/-- Presence of the three MediaPipe globals probed by the availability
check: `window.FaceMesh`, `window.Camera`, `window.drawConnectors`. -/
structure MediaPipeGlobals where
  faceMeshGlobal : Bool
  cameraGlobal : Bool
  drawConnectorsGlobal : Bool
deriving DecidableEq

/-- `checkMediaPipeAvailability` (src/src/App.tsx lines 115-124): the
availability flag value written on each poll. -/
def checkMediaPipeAvailability (g : MediaPipeGlobals) : Bool :=
  g.faceMeshGlobal && g.cameraGlobal && g.drawConnectorsGlobal

/-- The availability flag after a sequence of polls, each observing the
globals at its tick (the `setInterval(checkMediaPipeAvailability, 1000)`
loop): each poll overwrites the flag with the freshly computed value. -/
def pollAvailability (init : Bool) (ticks : List MediaPipeGlobals) : Bool :=
  ticks.foldl (fun _ g => checkMediaPipeAvailability g) init

/-- The guard of the start effect (src/src/App.tsx lines 340-345): the
condition under which the effect invokes `startFaceMesh`.
`videoPresent` models `webcamRef.current?.video`. -/
def startEffectFires (s : SessionState) (videoPresent : Bool) : Bool :=
  !s.showPermissionRequest && s.cameraReady && !s.isRunning && videoPresent

/-- Every call in a single face pass is a drawing call, so filtering the
pass for drawing calls keeps it whole. -/
theorem drawFacePass_filter (lm : Face) :
    (drawFacePass lm).filter isDrawCall = drawFacePass lm := rfl

/-- Filtering the concatenated per-face passes for drawing calls keeps
them all. -/
theorem flatMap_drawFacePass_filter (faces : List Face) :
    (faces.flatMap drawFacePass).filter isDrawCall = faces.flatMap drawFacePass := by
  induction faces with
  | nil => rfl
  | cons f rest ih =>
      rw [List.flatMap_cons, List.filter_append, drawFacePass_filter, ih]

/-- A single face pass issues exactly eight drawing calls. -/
theorem drawFacePass_length (lm : Face) : (drawFacePass lm).length = 8 := rfl

/-- The concatenated per-face passes issue exactly eight drawing calls
per face. -/
theorem flatMap_drawFacePass_length (faces : List Face) :
    (faces.flatMap drawFacePass).length = 8 * faces.length := by
  induction faces with
  | nil => rfl
  | cons f rest ih =>
      rw [List.flatMap_cons, List.length_append, drawFacePass_length, ih,
        List.length_cons]
      ring

/-- A face pass contains only drawing calls, which leave the context
transform and save stack untouched. -/
theorem run_drawFacePass (st : CtxState) (lm : Face) :
    CtxState.run st (drawFacePass lm) = st := rfl

/-- The concatenated per-face passes leave the context state untouched. -/
theorem run_flatMap_drawFacePass (st : CtxState) (faces : List Face) :
    CtxState.run st (faces.flatMap drawFacePass) = st := by
  induction faces with
  | nil => rfl
  | cons f rest ih =>
      rw [List.flatMap_cons, CtxState.run, List.foldl_append]
      exact ih

/-- C1: for every landmark result delivered to `onResults` with N detected
faces (N ≥ 1) on a canvas with an obtainable 2D context, the drawing calls
issued are exactly N passes, one per face in order, each pass being the
seven connector draws (low-opacity tesselation, right eye, left eye,
right eyebrow, left eyebrow, face outline, lips) followed by one
landmark-point draw; in total 8·N drawing calls. -/
theorem onResults_full_draw_sequence
    (cv : Canvas) (r : FaceResults) (faces : List Face)
    (hctx : cv.hasContext = true)
    (hfaces : r.multiFaceLandmarks = some faces)
    (hN : 0 < faces.length) :
    drawCallsOf (some cv) r = faces.flatMap drawFacePass ∧
    (drawCallsOf (some cv) r).length = 8 * faces.length ∧
    ∀ lm : Face, drawFacePass lm =
      [ CanvasOp.drawConnectorsCall lm ConnectorSet.tesselation
          ⟨"rgba(255, 255, 255, 0.2)", 8, none⟩
      , CanvasOp.drawConnectorsCall lm ConnectorSet.rightEye
          ⟨"rgba(255, 255, 255, 0.8)", 15, none⟩
      , CanvasOp.drawConnectorsCall lm ConnectorSet.leftEye
          ⟨"rgba(255, 255, 255, 0.8)", 15, none⟩
      , CanvasOp.drawConnectorsCall lm ConnectorSet.rightEyebrow
          ⟨"rgba(255, 255, 255, 0.8)", 15, none⟩
      , CanvasOp.drawConnectorsCall lm ConnectorSet.leftEyebrow
          ⟨"rgba(255, 255, 255, 0.8)", 15, none⟩
      , CanvasOp.drawConnectorsCall lm ConnectorSet.faceOval
          ⟨"rgba(255, 255, 255, 0.8)", 15, none⟩
      , CanvasOp.drawConnectorsCall lm ConnectorSet.lips
          ⟨"rgba(255, 255, 255, 0.8)", 15, none⟩
      , CanvasOp.drawLandmarksCall lm
          ⟨"rgba(255, 255, 255, 0.6)", 8, some 12⟩ ] := by
  have htrace : drawCallsOf (some cv) r = faces.flatMap drawFacePass := by
    simp only [drawCallsOf, onResults, hfaces, hctx, Bool.true_eq_false,
      if_false, if_pos hN, List.filter_append, flatMap_drawFacePass_filter]
    simp [List.filter, isDrawCall]
  refine ⟨htrace, ?_, fun lm => rfl⟩
  rw [htrace, flatMap_drawFacePass_length]

/-- C2: for every landmark result with zero detected faces
(`multiFaceLandmarks` absent or empty), `onResults` on a canvas with an
obtainable 2D context clears the canvas (the trace is exactly save,
clearRect, the mirror transform, restore) and issues no drawing call. -/
theorem onResults_zero_faces_no_draw
    (cv : Canvas) (r : FaceResults)
    (hctx : cv.hasContext = true)
    (hz : r.multiFaceLandmarks = none ∨ r.multiFaceLandmarks = some []) :
    onResults (some cv) r =
      [ CanvasOp.save
      , CanvasOp.clearRect 0 0 cv.width cv.height
      , CanvasOp.scale (-1) 1
      , CanvasOp.translate (-(cv.width : Int)) 0
      , CanvasOp.restore ] ∧
    drawCallsOf (some cv) r = [] ∧
    CanvasOp.clearRect 0 0 cv.width cv.height ∈ onResults (some cv) r := by
  have htrace : onResults (some cv) r =
      [ CanvasOp.save
      , CanvasOp.clearRect 0 0 cv.width cv.height
      , CanvasOp.scale (-1) 1
      , CanvasOp.translate (-(cv.width : Int)) 0
      , CanvasOp.restore ] := by
    rcases hz with h | h <;>
      simp only [onResults, h, hctx, Bool.true_eq_false, if_false] <;> rfl
  refine ⟨htrace, ?_, ?_⟩
  · unfold drawCallsOf
    rw [htrace]
    rfl
  · rw [htrace]
    simp

/-- Running the renderer's fixed prelude (save, clear, mirror transform),
then any context-preserving middle section, then the final restore,
returns the context to its initial state. -/
theorem run_save_mid_restore (st : CtxState) (w h : Nat) (t : Int)
    (mid : List CanvasOp) (hmid : ∀ s : CtxState, CtxState.run s mid = s) :
    CtxState.run st
      ([ CanvasOp.save, CanvasOp.clearRect 0 0 w h, CanvasOp.scale (-1) 1
       , CanvasOp.translate t 0 ] ++ mid ++ [CanvasOp.restore]) = st := by
  have h1 : CtxState.run st
      ([ CanvasOp.save, CanvasOp.clearRect 0 0 w h, CanvasOp.scale (-1) 1
       , CanvasOp.translate t 0 ] ++ mid ++ [CanvasOp.restore])
      = CtxState.run (CtxState.run (CtxState.run st
          [ CanvasOp.save, CanvasOp.clearRect 0 0 w h, CanvasOp.scale (-1) 1
          , CanvasOp.translate t 0 ]) mid) [CanvasOp.restore] := by
    simp [CtxState.run, List.foldl_append]
  rw [h1, hmid]
  rfl

/-- C10: every invocation of `onResults` saves the 2D-context state on entry
and restores it on exit, so the mirror transform applied during the call
does not persist after the call: running the issued calls from any context
state returns exactly that state; and when the canvas or its 2D context is
unavailable, no call at all is issued. -/
theorem onResults_context_saved_restored
    (st : CtxState) (canvas : Option Canvas) (r : FaceResults) :
    CtxState.run st (onResults canvas r) = st ∧
    onResults none r = [] ∧
    (∀ cv : Canvas, cv.hasContext = false → onResults (some cv) r = []) := by
  refine ⟨?_, rfl, ?_⟩
  · match canvas with
    | none => rfl
    | some cv =>
      cases hc : cv.hasContext with
      | false => simp [onResults, hc, CtxState.run]
      | true =>
        cases hml : r.multiFaceLandmarks with
        | none =>
            simp only [onResults, hml, hc, Bool.true_eq_false, if_false]
            exact run_save_mid_restore st _ _ _ [] (fun _ => rfl)
        | some faces =>
            by_cases hf : 0 < faces.length
            · simp only [onResults, hml, hc, Bool.true_eq_false, if_false,
                if_pos hf]
              exact run_save_mid_restore st _ _ _ _
                (fun s => run_flatMap_drawFacePass s faces)
            · simp only [onResults, hml, hc, Bool.true_eq_false, if_false,
                if_neg hf]
              exact run_save_mid_restore st _ _ _ [] (fun _ => rfl)
  · intro cv h
    simp [onResults, h]

/-- Witness for C1: one face with a single landmark on the 640x480 canvas. -/
theorem onResults_full_draw_sequence_witness :
    drawCallsOf (some ⟨640, 480, true⟩) ⟨some [[((1 : Int), 2, 3)]]⟩ =
      ([[((1 : Int), 2, 3)]] : List Face).flatMap drawFacePass :=
  (onResults_full_draw_sequence ⟨640, 480, true⟩ ⟨some [[(1, 2, 3)]]⟩
    [[(1, 2, 3)]] rfl rfl (by decide)).1

/-- Witness for C2: a result with `multiFaceLandmarks` absent on the
640x480 canvas draws nothing. -/
theorem onResults_zero_faces_no_draw_witness :
    drawCallsOf (some ⟨640, 480, true⟩) ⟨none⟩ = [] :=
  (onResults_zero_faces_no_draw ⟨640, 480, true⟩ ⟨none⟩ rfl (Or.inl rfl)).2.1

/-- Witness for C10: the identity context with an empty save stack is
returned unchanged from a one-face render, and a canvas without a
2D context yields no calls. -/
theorem onResults_context_saved_restored_witness :
    CtxState.run ⟨CtxTransform.id, []⟩
      (onResults (some ⟨640, 480, true⟩) ⟨some [[((1 : Int), 2, 3)]]⟩) =
      ⟨CtxTransform.id, []⟩ ∧
    onResults (some ⟨640, 480, false⟩) ⟨none⟩ = [] :=
  ⟨(onResults_context_saved_restored ⟨CtxTransform.id, []⟩
      (some ⟨640, 480, true⟩) ⟨some [[(1, 2, 3)]]⟩).1,
   (onResults_context_saved_restored ⟨CtxTransform.id, []⟩
      (some ⟨640, 480, false⟩) ⟨none⟩).2.2 ⟨640, 480, false⟩ rfl⟩

/-- A representative running session: permission granted, camera ready,
detector and camera-loop instances live, no recorded error. -/
def runningState : SessionState :=
  { showPermissionRequest := false
  , isLoading := false
  , cameraReady := true
  , lastError := none
  , isRunning := true
  , cdnAvailable := true
  , faceMeshRef := true
  , cameraRef := true }

/-- A state ready to start (permission granted, camera ready, not running)
but with the MediaPipe availability flag false. -/
def readyNoCdnState : SessionState :=
  { showPermissionRequest := false
  , isLoading := false
  , cameraReady := true
  , lastError := none
  , isRunning := false
  , cdnAvailable := false
  , faceMeshRef := false
  , cameraRef := false }

/-- C3: a failure of the per-frame send to the external detector leaves the
session state exactly as it was — in particular `isRunning` stays true and
`lastError` is untouched, so no error state is entered — and the failure is
logged. -/
theorem onFrame_failure_keeps_session_running
    (s : SessionState) (v : Bool) (e : String) (hrun : s.isRunning = true) :
    (onFrame s v (Except.error e)).1 = s ∧
    (onFrame s v (Except.error e)).1.isRunning = true ∧
    (onFrame s v (Except.error e)).1.lastError = s.lastError ∧
    (s.faceMeshRef = true → v = true →
      (onFrame s v (Except.error e)).2 =
        ["Error sending frame to facemesh: " ++ e]) := by
  have h1 : (onFrame s v (Except.error e)).1 = s := by
    unfold onFrame
    split <;> rfl
  refine ⟨h1, by rw [h1, hrun], by rw [h1], ?_⟩
  intro hf hv
  unfold onFrame
  rw [hf, hv]
  rfl

/-- Witness for C3: a frame-send failure in a concrete running session. -/
theorem onFrame_failure_keeps_session_running_witness :
    runningState.isRunning = true ∧
    (onFrame runningState true (Except.error "boom")).1 = runningState ∧
    (onFrame runningState true (Except.error "boom")).2 =
      ["Error sending frame to facemesh: " ++ "boom"] :=
  ⟨rfl,
   (onFrame_failure_keeps_session_running runningState true "boom" rfl).1,
   (onFrame_failure_keeps_session_running runningState true "boom" rfl).2.2.2
     rfl rfl⟩

/-- Counterexample to C4: in a running session with no recorded error, a
frame-send failure leaves `lastError` at `none` — the failure message is not
retained and no error state is entered, contradicting the claim that a
runtime frame-send failure transitions to the error state. -/
theorem onFrame_failure_does_not_set_lastError :
    runningState.isRunning = true ∧
    runningState.lastError = none ∧
    (onFrame runningState true (Except.error "send failed")).1.lastError =
      none ∧
    (onFrame runningState true (Except.error "send failed")).1.isRunning =
      true :=
  ⟨rfl, rfl, rfl, rfl⟩

/-- C4 (amended): whenever a start attempt fails — the availability check
throws, or the camera start promise rejects — `lastError` is set to the
failure message (with the source's fallback for an empty message); a
runtime frame-send failure, by contrast, is logged only and leaves
`lastError` unchanged. -/
theorem startFailure_sets_lastError
    (s : SessionState) (v c : Bool) (o : Except String Unit) (msg e : String)
    (hv : v = true) (hc : c = true) (hnr : s.isRunning = false) :
    (s.cdnAvailable = false →
      (startFaceMesh s v c o).lastError = some cdnUnavailableMessage) ∧
    (s.cdnAvailable = true → msg ≠ "" →
      (startFaceMesh s v c (Except.error msg)).lastError = some msg) ∧
    (s.cdnAvailable = true →
      (startFaceMesh s v c (Except.error "")).lastError =
        some "Failed to start camera") ∧
    (onFrame s v (Except.error e)).1.lastError = s.lastError := by
  subst hv
  subst hc
  refine ⟨?_, ?_, ?_, ?_⟩
  · intro hcdn
    simp [startFaceMesh, hnr, hcdn]
  · intro hcdn hmsg
    simp [startFaceMesh, hnr, hcdn, hmsg]
  · intro hcdn
    simp [startFaceMesh, hnr, hcdn]
  · unfold onFrame
    split <;> rfl

/-- Witness for C4 (amended): a start attempt with the availability flag
false records the unavailability message. -/
theorem startFailure_sets_lastError_witness :
    (startFaceMesh readyNoCdnState true true (Except.ok ())).lastError =
      some cdnUnavailableMessage :=
  (startFailure_sets_lastError readyNoCdnState true true (Except.ok ())
    "m" "e" rfl rfl rfl).1 rfl

/-- C5: for every capture-surface error whose message is permission-class
(contains "Permission" or "permission"), `handleWebcamError` re-shows the
permission gate, from any state, while recording the message and clearing
the loading indicator. -/
theorem permission_error_reshows_gate
    (s : SessionState) (err : WebcamError)
    (hperm : isPermissionClass (webcamErrorMessage err) = true) :
    (handleWebcamError s err).showPermissionRequest = true ∧
    (handleWebcamError s err).lastError = some (webcamErrorMessage err) ∧
    (handleWebcamError s err).isLoading = false := by
  simp [handleWebcamError, hperm]

/-- Witness for C5: a permission-denied DOMException observed while
running flips the gate back on. -/
theorem permission_error_reshows_gate_witness :
    isPermissionClass
      (webcamErrorMessage (WebcamError.domException "Permission denied")) =
      true ∧
    runningState.showPermissionRequest = false ∧
    (handleWebcamError runningState
      (WebcamError.domException "Permission denied")).showPermissionRequest =
      true :=
  ⟨by decide, rfl,
   (permission_error_reshows_gate runningState
     (WebcamError.domException "Permission denied") (by decide)).1⟩

/-- C6: stop never propagates an error: with no active session (both refs
absent) the body raises nothing and just clears the running flag; any error
raised by the underlying stop/close calls is swallowed by the catch, so the
caller always receives a state; and a repeated stop call yields the same
stopped state. -/
theorem stopFaceMesh_never_propagates
    (s : SessionState) (o c o2 c2 : Except String Unit)
    (hcam : s.cameraRef = false) (hfm : s.faceMeshRef = false) :
    stopFaceMeshBody s o c = Except.ok { s with isRunning := false } ∧
    stopFaceMesh s o c = { s with isRunning := false } ∧
    (∀ s1 : SessionState, ∀ o1 c1 : Except String Unit, ∀ e : String,
      stopFaceMeshBody s1 o1 c1 = Except.error e →
        stopFaceMesh s1 o1 c1 = s1) ∧
    stopFaceMesh (stopFaceMesh s o c) o2 c2 = { s with isRunning := false } := by
  have hbody : stopFaceMeshBody s o c = Except.ok { s with isRunning := false } := by
    simp [stopFaceMeshBody, hcam, hfm]
    rfl
  have h2 : stopFaceMesh s o c = { s with isRunning := false } := by
    unfold stopFaceMesh
    rw [hbody]
  have hbody2 : stopFaceMeshBody { s with isRunning := false } o2 c2 =
      Except.ok { s with isRunning := false } := by
    simp [stopFaceMeshBody, hcam, hfm]
    rfl
  refine ⟨hbody, h2, ?_, ?_⟩
  · intro s1 o1 c1 e h
    unfold stopFaceMesh
    rw [h]
  · rw [h2]
    unfold stopFaceMesh
    rw [hbody2]

/-- Witness for C6: stopping from the initial state (no instances ever
created) succeeds and merely clears the running flag. -/
theorem stopFaceMesh_never_propagates_witness :
    stopFaceMesh initialSessionState (Except.ok ()) (Except.ok ()) =
      { initialSessionState with isRunning := false } :=
  (stopFaceMesh_never_propagates initialSessionState (Except.ok ())
    (Except.ok ()) (Except.ok ()) (Except.ok ()) rfl rfl).2.1

/-- C7: after any poll sequence whose last tick observes globals `g`, the
availability flag equals the freshly recomputed check: it is true exactly
when all three globals (FaceMesh, Camera, drawConnectors) are present, and
false whenever any one is missing. -/
theorem availability_flag_requires_all_globals
    (init : Bool) (ticks : List MediaPipeGlobals) (g : MediaPipeGlobals) :
    pollAvailability init (ticks ++ [g]) = checkMediaPipeAvailability g ∧
    (pollAvailability init (ticks ++ [g]) = true ↔
      g.faceMeshGlobal = true ∧ g.cameraGlobal = true ∧
        g.drawConnectorsGlobal = true) ∧
    ((g.faceMeshGlobal = false ∨ g.cameraGlobal = false ∨
        g.drawConnectorsGlobal = false) →
      pollAvailability init (ticks ++ [g]) = false) := by
  have hlast : pollAvailability init (ticks ++ [g]) =
      checkMediaPipeAvailability g := by
    unfold pollAvailability
    rw [List.foldl_append]
    rfl
  refine ⟨hlast, ?_, ?_⟩
  · rw [hlast]
    unfold checkMediaPipeAvailability
    simp [Bool.and_eq_true, and_assoc]
  · intro hmiss
    rw [hlast]
    unfold checkMediaPipeAvailability
    rcases hmiss with h | h | h <;> simp [h]

/-- Witness for C7: a poll seeing one missing global reports false; a poll
seeing all three reports true. -/
theorem availability_flag_requires_all_globals_witness :
    pollAvailability false ([] ++ [⟨true, true, false⟩]) = false ∧
    pollAvailability false ([] ++ [⟨true, true, true⟩]) = true :=
  ⟨(availability_flag_requires_all_globals false [] ⟨true, true, false⟩).2.2
      (Or.inr (Or.inr rfl)),
   (availability_flag_requires_all_globals false [] ⟨true, true, true⟩).2.1.mpr
      ⟨rfl, rfl, rfl⟩⟩

/-- Counterexample to C8: in a state that is camera-ready, not running, and
whose availability flag is false, the start effect's guard still fires — so
`startFaceMesh` is invoked and observably acts (it records the
unavailability error) — contradicting the claim that no start is attempted
while the availability flag is false. -/
theorem start_attempted_despite_unavailable_flag :
    startEffectFires readyNoCdnState true = true ∧
    readyNoCdnState.cdnAvailable = false ∧
    readyNoCdnState.cameraReady = true ∧
    readyNoCdnState.isRunning = false ∧
    (startFaceMesh readyNoCdnState true true (Except.ok ())).lastError =
      some cdnUnavailableMessage :=
  ⟨rfl, rfl, rfl, rfl, rfl⟩

/-- C8 (amended): the start effect triggers `startFaceMesh` exactly when
the permission gate is closed, the capture surface has reported ready, the
video element is present, and the session is not already running — the
availability flag is not part of that trigger; when the flag is false the
triggered attempt fails immediately, recording the unavailability message,
and creates no detector or camera-loop instance. -/
theorem start_attempt_guard_and_availability_check
    (s : SessionState) (v c : Bool) (o : Except String Unit)
    (hfire : startEffectFires s v = true) (hcdn : s.cdnAvailable = false)
    (hc : c = true) :
    startFaceMesh s v c o =
      { s with lastError := some cdnUnavailableMessage, isLoading := false } ∧
    (startFaceMesh s v c o).faceMeshRef = s.faceMeshRef ∧
    (startFaceMesh s v c o).cameraRef = s.cameraRef ∧
    (startEffectFires s v = true ↔
      s.showPermissionRequest = false ∧ s.cameraReady = true ∧
        s.isRunning = false ∧ v = true) := by
  have hguard : s.showPermissionRequest = false ∧ s.cameraReady = true ∧
      s.isRunning = false ∧ v = true := by
    unfold startEffectFires at hfire
    simp only [Bool.and_eq_true, Bool.not_eq_true'] at hfire
    exact ⟨hfire.1.1.1, hfire.1.1.2, hfire.1.2, hfire.2⟩
  obtain ⟨hp, hcr, hnr, hv⟩ := hguard
  subst hv
  subst hc
  have hmain : startFaceMesh s true true o =
      { s with lastError := some cdnUnavailableMessage, isLoading := false } := by
    simp [startFaceMesh, hnr, hcdn]
  refine ⟨hmain, by rw [hmain], by rw [hmain], ?_⟩
  unfold startEffectFires
  simp [hp, hcr, hnr]

/-- Witness for C8 (amended): the concrete ready-but-unavailable state. -/
theorem start_attempt_guard_and_availability_check_witness :
    startFaceMesh readyNoCdnState true true (Except.error "x") =
      { readyNoCdnState with
          lastError := some cdnUnavailableMessage, isLoading := false } :=
  (start_attempt_guard_and_availability_check readyNoCdnState true true
    (Except.error "x") rfl rfl rfl).1

/-- C9: invoking `startFaceMesh` while the session is already running is a
no-op enforced by the guard on the running flag: the state is returned
unchanged, and in particular no second detector or camera-loop instance is
created. -/
theorem startFaceMesh_noop_when_running
    (s : SessionState) (v c : Bool) (o : Except String Unit)
    (hrun : s.isRunning = true) :
    startFaceMesh s v c o = s ∧
    (startFaceMesh s v c o).faceMeshRef = s.faceMeshRef ∧
    (startFaceMesh s v c o).cameraRef = s.cameraRef := by
  have h : startFaceMesh s v c o = s := by
    unfold startFaceMesh
    rw [hrun]
    simp
  exact ⟨h, by rw [h], by rw [h]⟩

/-- Witness for C9: a second start on the concrete running session changes
nothing. -/
theorem startFaceMesh_noop_when_running_witness :
    startFaceMesh runningState true true (Except.ok ()) = runningState :=
  (startFaceMesh_noop_when_running runningState true true (Except.ok ())
    rfl).1
